import Mathlib

/-!
Verification of the ds-lab3 API gateway: a shallow embedding of
`src/app/circuit_breaker.py`, `src/app/services.py` and
`src/app/gateway/main.py`, followed by theorems settling the frozen
claims about the circuit breaker, the service clients and the
purchase / aggregation flows.

Modelling conventions:
* Python machine state (breaker fields, `deque(maxlen=...)`) becomes an
  explicit `CircuitBreaker` record threaded through every call.
* `time.time()` is modelled by an explicit `now : Int` parameter; the
  two `time.time()` reads inside one `call` are identified (time does
  not advance within a single call in the model).
* An outbound HTTP interaction is modelled by its outcome: either a
  transport error or an `HttpResponse` (status code plus parsed body).
* A raised Python exception is an `Except.error`; `GwError` lists the
  exception classes the gateway distinguishes.
-/

namespace DsLab3

/-- Exceptions observable in the gateway, as one error type:
`circuitOpen s` is `CircuitOpenException` with its `service` field,
`httpError st` is `requests.HTTPError` from `raise_for_status`,
`connectionError` is a transport-level failure from `requests`,
`attributeError` models attribute access on `None`. -/
inductive GwError where
  | circuitOpen (service : String)
  | httpError (status : Nat)
  | connectionError
  | attributeError
deriving DecidableEq, Repr

/-- A backend HTTP response: status code and (already parsed) body. -/
structure HttpResponse (α : Type) where
  status : Nat
  body : α
deriving DecidableEq, Repr

/-- `response.raise_for_status()`: `requests` raises `HTTPError` for
any status in 400..599; backends produce no status above that range,
so the check is modelled as `400 ≤ status`. -/
def raise_for_status {α : Type} (r : HttpResponse α) : Except GwError (HttpResponse α) :=
  if 400 ≤ r.status then .error (.httpError r.status) else .ok r

/-- State of one `CircuitBreaker` object (`circuit_breaker.py`,
`__init__`).  The Python `state` field is one of the strings
`"closed"`, `"open"`, `"half-open"`; it is kept as a `String`.
`open_since` is `None` until the first transition to open; the code
reads it only while `state == "open"`, where it is always set, so the
model reads it through `Option.getD 0`. -/
structure CircuitBreaker where
  service : String
  window_size : Nat
  failure_threshold : Nat
  recovery_timeout : Int
  state : String
  open_since : Option Int
  results : List Bool
deriving DecidableEq, Repr

/-- `CircuitBreaker.__init__`: fresh breaker, closed, empty window. -/
def CircuitBreaker.make (service : String) (window_size failure_threshold : Nat)
    (recovery_timeout : Int) : CircuitBreaker :=
  { service := service, window_size := window_size,
    failure_threshold := failure_threshold, recovery_timeout := recovery_timeout,
    state := "closed", open_since := none, results := [] }

/-- `deque(maxlen=n).append(x)`: append on the right, evicting from the
left when capacity is exceeded. -/
def dequeAppend (maxlen : Nat) (xs : List Bool) (x : Bool) : List Bool :=
  let ys := xs ++ [x]
  if maxlen < ys.length then ys.drop (ys.length - maxlen) else ys

/-- `CircuitBreaker._failure_count`: count of `False` in the window. -/
def CircuitBreaker.failure_count (cb : CircuitBreaker) : Nat :=
  cb.results.count false

/-- Result of one guarded call: the surfaced result, the breaker state
after the call, and the outcomes the call appended to the window
(`recorded = []` exactly when the wrapped operation was not invoked). -/
structure CallResult (α : Type) where
  result : Except GwError α
  breaker : CircuitBreaker
  recorded : List Bool

/-- The `try`/`except` body of `CircuitBreaker.call` (lines 44-70),
run after the open-state check: execute the operation, record the
outcome, and apply the closed/half-open transitions.  `op` is the
outcome of invoking the wrapped function once. -/
def CircuitBreaker.executeCall {α : Type} (cb : CircuitBreaker) (now : Int)
    (op : Except GwError α) : CallResult α :=
  match op with
  | .error _ =>
    let cb2 := { cb with results := dequeAppend cb.window_size cb.results false }
    if cb.state = "half-open" then
      ⟨.error (.circuitOpen cb.service),
       { cb2 with state := "open", open_since := some now }, [false]⟩
    else if cb.failure_threshold ≤ cb2.failure_count then
      ⟨.error (.circuitOpen cb.service),
       { cb2 with state := "open", open_since := some now }, [false]⟩
    else
      ⟨.error (.circuitOpen cb.service), cb2, [false]⟩
  | .ok v =>
    let cb2 := { cb with results := dequeAppend cb.window_size cb.results true }
    if cb.state = "half-open" then
      ⟨.ok v, { cb2 with state := "closed", results := [] }, [true]⟩
    else
      ⟨.ok v, cb2, [true]⟩

/-- `CircuitBreaker.call` (lines 34-70): reject while open and the
recovery timeout has not elapsed; lazily move to half-open once it
has; otherwise run the operation through `executeCall`. -/
def CircuitBreaker.call {α : Type} (cb : CircuitBreaker) (now : Int)
    (op : Except GwError α) : CallResult α :=
  if cb.state = "open" then
    if cb.recovery_timeout ≤ now - cb.open_since.getD 0 then
      CircuitBreaker.executeCall { cb with state := "half-open" } now op
    else
      ⟨.error (.circuitOpen cb.service), cb, []⟩
  else
    CircuitBreaker.executeCall cb now op

/-- `services.wrap_cb`: each application of the decorator builds a
fresh breaker with `failure_threshold=3`, `recovery_timeout=20` and
the default `window_size=10`. -/
def wrap_cb (service : String) : CircuitBreaker :=
  CircuitBreaker.make service 10 3 20

/-! ## Data model (`common` DTOs, as used by the gateway) -/

/-- `FlightResponse`: number, route endpoints, date, price. -/
structure Flight where
  flightNumber : String
  fromAirport : String
  toAirport : String
  date : Int
  price : Int
deriving DecidableEq, Repr

/-- `Privilege`: bonus account with id, balance and status tier. -/
structure Privilege where
  id : Nat
  balance : Int
  status : String
deriving DecidableEq, Repr

/-- `Ticket`: uid, owner, flight number, price paid, status. -/
structure Ticket where
  ticket_uid : Nat
  username : String
  flight_number : String
  price : Int
  status : String
deriving DecidableEq, Repr

/-- `PrivilegeHistory`: one ledger transaction entry. -/
structure PrivilegeHistory where
  privilege_id : Nat
  ticket_uid : Nat
  datetime : Int
  balance_diff : Int
  operation_type : String
deriving DecidableEq, Repr

/-- `AddTranscationRequest` (name as in the source): payload of a
ledger-transaction append. -/
structure AddTranscationRequest where
  privilege_id : Nat
  ticket_uid : Nat
  datetime : Int
  balance_diff : Int
  operation_type : String
deriving DecidableEq, Repr

/-- `TicketCreateRequest`: payload of a ticket-creation POST. -/
structure TicketCreateRequest where
  ticketUid : Nat
  username : String
  flightNumber : String
  price : Int
deriving DecidableEq, Repr

/-! ## Service clients (`services.py`)

Each `@wrap_cb(NAME)`-decorated method owns the breaker created by its
own decorator application, so a client record carries one breaker
field per decorated method.  A method takes the outcome of its one
HTTP interaction as input and returns its result together with the
updated client. -/

/-- `FlightsService.get_all` body: GET `/flights`, `raise_for_status`,
parse the page of flights. -/
def get_all_op (resp : Except GwError (HttpResponse (List Flight))) :
    Except GwError (List Flight) :=
  match resp with
  | .error e => .error e
  | .ok r =>
    match raise_for_status r with
    | .error e => .error e
    | .ok r2 => .ok r2.body

/-- `FlightsService.get_flight_by_number` body: GET
`/flights/{flight_number}`, `raise_for_status`, parse the flight.
Note there is no special case for a 404 status: it flows into
`raise_for_status` like any other error status. -/
def get_flight_by_number_op (resp : Except GwError (HttpResponse Flight)) :
    Except GwError Flight :=
  match resp with
  | .error e => .error e
  | .ok r =>
    match raise_for_status r with
    | .error e => .error e
    | .ok r2 => .ok r2.body

/-- The flights client: one breaker per decorated method, both created
by `wrap_cb("Flights Service")`. -/
structure FlightsService where
  cb_get_all : CircuitBreaker
  cb_get_flight_by_number : CircuitBreaker
deriving DecidableEq, Repr

/-- The flights client as constructed at import time. -/
def FlightsService.init : FlightsService :=
  { cb_get_all := wrap_cb "Flights Service",
    cb_get_flight_by_number := wrap_cb "Flights Service" }

/-- Guarded `get_all`. -/
def FlightsService.get_all (s : FlightsService) (now : Int)
    (resp : Except GwError (HttpResponse (List Flight))) :
    Except GwError (List Flight) × FlightsService :=
  let c := s.cb_get_all.call now (get_all_op resp)
  (c.result, { s with cb_get_all := c.breaker })

/-- Guarded `get_flight_by_number`. -/
def FlightsService.get_flight_by_number (s : FlightsService) (now : Int)
    (resp : Except GwError (HttpResponse Flight)) :
    Except GwError Flight × FlightsService :=
  let c := s.cb_get_flight_by_number.call now (get_flight_by_number_op resp)
  (c.result, { s with cb_get_flight_by_number := c.breaker })

/-- The placeholder flight synthesized by
`get_flight_by_number_or_default`. -/
def default_flight : Flight :=
  { flightNumber := "XXX", fromAirport := "XXX", toAirport := "XXX",
    date := 1, price := 0 }

/-- `get_flight_by_number_or_default`: catch `CircuitOpenException`
and substitute the placeholder; any other exception propagates. -/
def FlightsService.get_flight_by_number_or_default (s : FlightsService) (now : Int)
    (resp : Except GwError (HttpResponse Flight)) :
    Except GwError Flight × FlightsService :=
  let r := s.get_flight_by_number now resp
  match r.1 with
  | .error (.circuitOpen _) => (.ok default_flight, r.2)
  | other => (other, r.2)

/-- `TicketsService.get_user_tickets` body. -/
def get_user_tickets_op (resp : Except GwError (HttpResponse (List Ticket))) :
    Except GwError (List Ticket) :=
  match resp with
  | .error e => .error e
  | .ok r =>
    match raise_for_status r with
    | .error e => .error e
    | .ok r2 => .ok r2.body

/-- `TicketsService.get_ticket` body: a 404 status maps to `None`
before `raise_for_status` runs. -/
def get_ticket_op (resp : Except GwError (HttpResponse Ticket)) :
    Except GwError (Option Ticket) :=
  match resp with
  | .error e => .error e
  | .ok r =>
    if r.status = 404 then .ok none
    else
      match raise_for_status r with
      | .error e => .error e
      | .ok r2 => .ok (some r2.body)

/-- The tickets client: one breaker per decorated method; the
mutating methods `delete_ticket` and `create_ticket` are not
decorated and have no breaker. -/
structure TicketsService where
  cb_get_user_tickets : CircuitBreaker
  cb_get_ticket : CircuitBreaker
deriving DecidableEq, Repr

/-- The tickets client as constructed at import time. -/
def TicketsService.init : TicketsService :=
  { cb_get_user_tickets := wrap_cb "Ticket Service",
    cb_get_ticket := wrap_cb "Ticket Service" }

/-- Guarded `get_user_tickets`. -/
def TicketsService.get_user_tickets (s : TicketsService) (now : Int)
    (resp : Except GwError (HttpResponse (List Ticket))) :
    Except GwError (List Ticket) × TicketsService :=
  let c := s.cb_get_user_tickets.call now (get_user_tickets_op resp)
  (c.result, { s with cb_get_user_tickets := c.breaker })

/-- Guarded `get_ticket`. -/
def TicketsService.get_ticket (s : TicketsService) (now : Int)
    (resp : Except GwError (HttpResponse Ticket)) :
    Except GwError (Option Ticket) × TicketsService :=
  let c := s.cb_get_ticket.call now (get_ticket_op resp)
  (c.result, { s with cb_get_ticket := c.breaker })

/-- `TicketsService.delete_ticket`: undecorated; DELETE then
`raise_for_status`, raw errors propagate, no breaker involved. -/
def TicketsService.delete_ticket (resp : Except GwError (HttpResponse Unit)) :
    Except GwError Unit :=
  match resp with
  | .error e => .error e
  | .ok r =>
    match raise_for_status r with
    | .error e => .error e
    | .ok _ => .ok ()

/-- `TicketsService.create_ticket`: undecorated; POST the payload then
`raise_for_status`, raw errors propagate, no breaker involved. -/
def TicketsService.create_ticket (_req : TicketCreateRequest)
    (resp : Except GwError (HttpResponse Unit)) : Except GwError Unit :=
  match resp with
  | .error e => .error e
  | .ok r =>
    match raise_for_status r with
    | .error e => .error e
    | .ok _ => .ok ()

/-- `PrivilegesService.get_user_privelge` body (name as in the
source): a 404 status maps to `None`. -/
def get_user_privelge_op (resp : Except GwError (HttpResponse Privilege)) :
    Except GwError (Option Privilege) :=
  match resp with
  | .error e => .error e
  | .ok r =>
    if r.status = 404 then .ok none
    else
      match raise_for_status r with
      | .error e => .error e
      | .ok r2 => .ok (some r2.body)

/-- `PrivilegesService.get_user_privelge_history` body. -/
def get_user_privelge_history_op
    (resp : Except GwError (HttpResponse (List PrivilegeHistory))) :
    Except GwError (List PrivilegeHistory) :=
  match resp with
  | .error e => .error e
  | .ok r =>
    match raise_for_status r with
    | .error e => .error e
    | .ok r2 => .ok r2.body

/-- `PrivilegesService.get_user_privelge_transaction` body: a 404
status maps to `None`. -/
def get_user_privelge_transaction_op
    (resp : Except GwError (HttpResponse PrivilegeHistory)) :
    Except GwError (Option PrivilegeHistory) :=
  match resp with
  | .error e => .error e
  | .ok r =>
    if r.status = 404 then .ok none
    else
      match raise_for_status r with
      | .error e => .error e
      | .ok r2 => .ok (some r2.body)

/-- The privileges client: one breaker per decorated method; the
mutating methods `add_transaction` and `rollback_transaction` are not
decorated and have no breaker. -/
structure PrivilegesService where
  cb_get_user_privelge : CircuitBreaker
  cb_get_user_privelge_history : CircuitBreaker
  cb_get_user_privelge_transaction : CircuitBreaker
deriving DecidableEq, Repr

/-- The privileges client as constructed at import time. -/
def PrivilegesService.init : PrivilegesService :=
  { cb_get_user_privelge := wrap_cb "Bonus Service",
    cb_get_user_privelge_history := wrap_cb "Bonus Service",
    cb_get_user_privelge_transaction := wrap_cb "Bonus Service" }

/-- Guarded `get_user_privelge`. -/
def PrivilegesService.get_user_privelge (s : PrivilegesService) (now : Int)
    (resp : Except GwError (HttpResponse Privilege)) :
    Except GwError (Option Privilege) × PrivilegesService :=
  let c := s.cb_get_user_privelge.call now (get_user_privelge_op resp)
  (c.result, { s with cb_get_user_privelge := c.breaker })

/-- Guarded `get_user_privelge_history`. -/
def PrivilegesService.get_user_privelge_history (s : PrivilegesService) (now : Int)
    (resp : Except GwError (HttpResponse (List PrivilegeHistory))) :
    Except GwError (List PrivilegeHistory) × PrivilegesService :=
  let c := s.cb_get_user_privelge_history.call now (get_user_privelge_history_op resp)
  (c.result, { s with cb_get_user_privelge_history := c.breaker })

/-- Guarded `get_user_privelge_transaction`. -/
def PrivilegesService.get_user_privelge_transaction (s : PrivilegesService) (now : Int)
    (resp : Except GwError (HttpResponse PrivilegeHistory)) :
    Except GwError (Option PrivilegeHistory) × PrivilegesService :=
  let c := s.cb_get_user_privelge_transaction.call now
    (get_user_privelge_transaction_op resp)
  (c.result, { s with cb_get_user_privelge_transaction := c.breaker })

/-- `PrivilegesService.add_transaction`: undecorated; POST the payload
then `raise_for_status`, raw errors propagate, no breaker involved. -/
def PrivilegesService.add_transaction (_data : AddTranscationRequest)
    (resp : Except GwError (HttpResponse Unit)) : Except GwError Unit :=
  match resp with
  | .error e => .error e
  | .ok r =>
    match raise_for_status r with
    | .error e => .error e
    | .ok _ => .ok ()

/-- `PrivilegesService.rollback_transaction`: undecorated; DELETE then
`raise_for_status`, raw errors propagate, no breaker involved. -/
def PrivilegesService.rollback_transaction
    (resp : Except GwError (HttpResponse Unit)) : Except GwError Unit :=
  match resp with
  | .error e => .error e
  | .ok r =>
    match raise_for_status r with
    | .error e => .error e
    | .ok _ => .ok ()

/-! ## Gateway (`gateway/main.py`)

The module-level clients become one `GatewayState` record threaded
through each handler.  A handler additionally takes the environment of
backend responses its HTTP interactions would observe. -/

/-- The three module-level clients of `gateway/main.py`. -/
structure GatewayState where
  flights_service : FlightsService
  tickets_service : TicketsService
  privileges_service : PrivilegesService
deriving DecidableEq, Repr

/-- Gateway state as constructed at import time. -/
def GatewayState.init : GatewayState :=
  { flights_service := FlightsService.init,
    tickets_service := TicketsService.init,
    privileges_service := PrivilegesService.init }

/-- `PrivilegeShortInfo`. -/
structure PrivilegeShortInfo where
  balance : Int
  status : String
deriving DecidableEq, Repr

/-- `TicketResponse`. -/
structure TicketResponse where
  ticketUid : Nat
  flightNumber : String
  fromAirport : String
  toAirport : String
  date : Int
  price : Int
  status : String
deriving DecidableEq, Repr

/-- `TicketPurchaseResponse`; the `privilege` field is flattened into
its balance and status. -/
structure TicketPurchaseResponse where
  ticketUid : Nat
  flightNumber : String
  fromAirport : String
  toAirport : String
  date : Int
  price : Int
  paidByMoney : Int
  paidByBonuses : Int
  status : String
  privilege_balance : Int
  privilege_status : String
deriving DecidableEq, Repr

/-- What the `buy_ticket` handler returns to the HTTP layer:
a purchase response, a `ValidationErrorResponse`, or a propagated
exception (a `CircuitOpenException` becomes a 503 through the
registered exception handler). -/
inductive BuyOutcome where
  | purchased (resp : TicketPurchaseResponse)
  | validationError (msg : String)
  | raised (e : GwError)
deriving DecidableEq, Repr

/-- Backend responses observed by one run of `buy_ticket`, in call
order: flight lookup, first privilege read, transaction append,
privilege re-read, ticket creation. -/
structure BuyEnv where
  flightResp : Except GwError (HttpResponse Flight)
  privResp1 : Except GwError (HttpResponse Privilege)
  addTxResp : Except GwError (HttpResponse Unit)
  privResp2 : Except GwError (HttpResponse Privilege)
  createResp : Except GwError (HttpResponse Unit)

/-- Result of one run of `buy_ticket`: the handler outcome, the
ledger-transaction and ticket-creation requests issued to the
backends, and the gateway state after the run. -/
structure BuyResult where
  outcome : BuyOutcome
  transactions : List AddTranscationRequest
  created : List TicketCreateRequest
  gw : GatewayState
deriving DecidableEq, Repr

/-- The `POST /tickets` handler `buy_ticket` (lines 134-193).
`now` stands for both `datetime.now()` and the breaker clock;
`ticket_uid` for the generated `uuid.uuid4()`.  The source guards
`if flight is None`, but `get_flight_by_number` always returns a
validated `FlightResponse` or raises, so that branch is unreachable
and the not-found case surfaces as a raised `CircuitOpenException`. -/
def buy_ticket (gw : GatewayState) (env : BuyEnv) (body_flightNumber : String)
    (body_paidFromBalance : Bool) (x_user_name : String) (now : Int)
    (ticket_uid : Nat) : BuyResult :=
  let f := gw.flights_service.get_flight_by_number now env.flightResp
  let gw1 := { gw with flights_service := f.2 }
  match f.1 with
  | .error e => ⟨.raised e, [], [], gw1⟩
  | .ok flight =>
    let p := gw1.privileges_service.get_user_privelge now env.privResp1
    let gw2 := { gw1 with privileges_service := p.2 }
    match p.1 with
    | .error e => ⟨.raised e, [], [], gw2⟩
    | .ok none => ⟨.validationError "Пользователь не существует", [], [], gw2⟩
    | .ok (some priv) =>
      -- payment split and conditional ledger write (lines 149-176);
      -- the Python truthiness test `if paid_by_bonus:` is a nonzero test
      let split :
          Int × Int × List AddTranscationRequest × Except GwError Unit :=
        if body_paidFromBalance then
          let money := min priv.balance flight.price
          let paid_by_bonus := money
          let paid_by_money := flight.price - paid_by_bonus
          if paid_by_bonus ≠ 0 then
            let req : AddTranscationRequest :=
              ⟨priv.id, ticket_uid, now, paid_by_bonus, "DEBIT_THE_ACCOUNT"⟩
            (paid_by_money, paid_by_bonus, [req],
             PrivilegesService.add_transaction req env.addTxResp)
          else
            (paid_by_money, paid_by_bonus, [], .ok ())
        else
          let req : AddTranscationRequest :=
            ⟨priv.id, ticket_uid, now, Int.fdiv flight.price 10, "FILL_IN_BALANCE"⟩
          (flight.price, 0, [req],
           PrivilegesService.add_transaction req env.addTxResp)
      match split with
      | (paid_by_money, paid_by_bonus, txs, txres) =>
        match txres with
        | .error e => ⟨.raised e, txs, [], gw2⟩
        | .ok () =>
          let p2 := gw2.privileges_service.get_user_privelge now env.privResp2
          let gw3 := { gw2 with privileges_service := p2.2 }
          match p2.1 with
          | .error e => ⟨.raised e, txs, [], gw3⟩
          | .ok priv2 =>
            -- a `None` re-read does not stop the flow here: the source
            -- calls `create_ticket` next and only touches `priv.balance`
            -- while building the response afterwards
            let creq : TicketCreateRequest :=
              ⟨ticket_uid, x_user_name, flight.flightNumber, paid_by_money⟩
            match TicketsService.create_ticket creq env.createResp with
            | .error e => ⟨.raised e, txs, [creq], gw3⟩
            | .ok () =>
              match priv2 with
              | none =>
                -- `priv.balance` on `None` raises `AttributeError` while
                -- building the response, after the create request was issued
                ⟨.raised .attributeError, txs, [creq], gw3⟩
              | some priv2 =>
                ⟨.purchased
                  ⟨ticket_uid, body_flightNumber, flight.fromAirport,
                   flight.toAirport, now, flight.price, paid_by_money,
                   paid_by_bonus, "PAID", priv2.balance, priv2.status⟩,
                 txs, [creq], gw3⟩

/-- `map_ticket_to_ticket_response` (lines 59-69): look the flight up
through the get-or-default helper; the response price is the flight
price.  `flightResp` gives the flight backend response per flight
number. -/
def map_ticket_to_ticket_response (fs : FlightsService) (now : Int)
    (flightResp : String → Except GwError (HttpResponse Flight)) (tick : Ticket) :
    Except GwError TicketResponse × FlightsService :=
  let f := fs.get_flight_by_number_or_default now (flightResp tick.flight_number)
  match f.1 with
  | .error e => (.error e, f.2)
  | .ok flight =>
    (.ok ⟨tick.ticket_uid, tick.flight_number, flight.fromAirport,
          flight.toAirport, flight.date, flight.price, tick.status⟩, f.2)

/-- The mapping loop over the tickets of one user, threading the flights
client; the first raised exception aborts the loop. -/
def map_tickets (fs : FlightsService) (now : Int)
    (flightResp : String → Except GwError (HttpResponse Flight)) :
    List Ticket → Except GwError (List TicketResponse) × FlightsService
  | [] => (.ok [], fs)
  | t :: ts =>
    let r := map_ticket_to_ticket_response fs now flightResp t
    match r.1 with
    | .error e => (.error e, r.2)
    | .ok tr =>
      let rest := map_tickets r.2 now flightResp ts
      match rest.1 with
      | .error e => (.error e, rest.2)
      | .ok trs => (.ok (tr :: trs), rest.2)

/-- Backend responses observed by one run of `get_tickets` or
`get_user`: privilege read, ticket-list read, and the flight backend
response per flight number. -/
structure UserViewEnv where
  privResp : Except GwError (HttpResponse Privilege)
  ticketsResp : Except GwError (HttpResponse (List Ticket))
  flightResp : String → Except GwError (HttpResponse Flight)

/-- Outcome of the `GET /tickets` handler. -/
inductive TicketsViewOutcome where
  | ok (tickets : List TicketResponse)
  | notFound
  | raised (e : GwError)
deriving DecidableEq, Repr

/-- The `GET /tickets` handler `get_tickets` (lines 72-81): no
exception handling — a `CircuitOpenException` from either guarded
lookup propagates and fails the whole response. -/
def get_tickets (gw : GatewayState) (now : Int) (env : UserViewEnv) :
    TicketsViewOutcome × GatewayState :=
  let p := gw.privileges_service.get_user_privelge now env.privResp
  let gw1 := { gw with privileges_service := p.2 }
  match p.1 with
  | .error e => (.raised e, gw1)
  | .ok none => (.notFound, gw1)
  | .ok (some _) =>
    let t := gw1.tickets_service.get_user_tickets now env.ticketsResp
    let gw2 := { gw1 with tickets_service := t.2 }
    match t.1 with
    | .error e => (.raised e, gw2)
    | .ok tickets_info =>
      let m := map_tickets gw2.flights_service now env.flightResp tickets_info
      let gw3 := { gw2 with flights_service := m.2 }
      match m.1 with
      | .error e => (.raised e, gw3)
      | .ok tickets => (.ok tickets, gw3)

/-- `UserInfoResponse`; `privilege = none` renders as the empty
privilege section (`privilege=""`). -/
structure UserInfoResponse where
  tickets : List TicketResponse
  privilege : Option PrivilegeShortInfo
deriving DecidableEq, Repr

/-- Outcome of the `GET /me` handler. -/
inductive UserViewOutcome where
  | ok (r : UserInfoResponse)
  | notFound
  | raised (e : GwError)
deriving DecidableEq, Repr

/-- The `GET /me` handler `get_user` (lines 84-106): the privilege
read and the ticket read each sit in their own
`try/except CircuitOpenException`, degrading that section to an
empty/absent value; the 404 not-found return sits inside the first
`try` block. -/
def get_user (gw : GatewayState) (now : Int) (env : UserViewEnv) :
    UserViewOutcome × GatewayState :=
  let p := gw.privileges_service.get_user_privelge now env.privResp
  let gw1 := { gw with privileges_service := p.2 }
  match p.1 with
  | .ok none => (.notFound, gw1)
  | .error (.httpError st) => (.raised (.httpError st), gw1)
  | .error .connectionError => (.raised .connectionError, gw1)
  | .error .attributeError => (.raised .attributeError, gw1)
  | pres =>
    -- here `pres` is `.ok (some priv)` or a caught `CircuitOpenException`
    let privilege : Option Privilege :=
      match pres with
      | .ok (some priv) => some priv
      | _ => none
    let t := gw1.tickets_service.get_user_tickets now env.ticketsResp
    let gw2 := { gw1 with tickets_service := t.2 }
    let mapped : Except GwError (List TicketResponse) × FlightsService :=
      match t.1 with
      | .error e => (.error e, gw2.flights_service)
      | .ok tickets_info =>
        map_tickets gw2.flights_service now env.flightResp tickets_info
    let gw3 := { gw2 with flights_service := mapped.2 }
    let finish (tickets : List TicketResponse) : UserViewOutcome × GatewayState :=
      match privilege with
      | none => (.ok ⟨tickets, none⟩, gw3)
      | some priv => (.ok ⟨tickets, some ⟨priv.balance, priv.status⟩⟩, gw3)
    match mapped.1 with
    | .error (.circuitOpen _) => finish []
    | .error e => (.raised e, gw3)
    | .ok tickets => finish tickets

/-! ## Helper lemmas about the breaker -/

/-- Executing a failing operation always surfaces
`CircuitOpenException(service)` and records exactly one `false`. -/
theorem executeCall_error {α : Type} (cb : CircuitBreaker) (now : Int) (e : GwError) :
    (CircuitBreaker.executeCall (α := α) cb now (.error e)).result
        = .error (.circuitOpen cb.service) ∧
    (CircuitBreaker.executeCall (α := α) cb now (.error e)).recorded = [false] := by
  simp only [CircuitBreaker.executeCall]
  split_ifs <;> exact ⟨rfl, rfl⟩

/-- Executing a succeeding operation returns its value unchanged and
records exactly one `true`. -/
theorem executeCall_ok {α : Type} (cb : CircuitBreaker) (now : Int) (v : α) :
    (CircuitBreaker.executeCall cb now (.ok v)).result = .ok v ∧
    (CircuitBreaker.executeCall cb now (.ok v)).recorded = [true] := by
  simp only [CircuitBreaker.executeCall]
  split_ifs <;> exact ⟨rfl, rfl⟩

/-- A call attempted while open, before the recovery timeout elapses,
is rejected: `CircuitOpenException`, breaker unchanged, nothing
recorded (the wrapped operation is not invoked). -/
theorem call_rejected {α : Type} (cb : CircuitBreaker) (now : Int)
    (op : Except GwError α) (hst : cb.state = "open")
    (hto : now - cb.open_since.getD 0 < cb.recovery_timeout) :
    cb.call now op = ⟨.error (.circuitOpen cb.service), cb, []⟩ := by
  unfold CircuitBreaker.call
  rw [if_pos hst, if_neg (not_le.mpr hto)]

/-! ## Claims about the breaker state machine -/

/-- C5: for every guarded call whose wrapped operation actually runs
(the breaker is not rejecting), a raising operation is recorded as a
failure outcome and surfaced as `CircuitOpenException(service)` — in
every state, including the very first isolated failure while closed —
and a succeeding operation has its result returned unchanged with a
`true` outcome appended to the window. -/
theorem C5_guarded_call_contract {α : Type} (cb : CircuitBreaker) (now : Int)
    (op : Except GwError α)
    (hexec : cb.state ≠ "open" ∨ cb.recovery_timeout ≤ now - cb.open_since.getD 0) :
    (∀ e, op = .error e →
      (cb.call now op).result = .error (.circuitOpen cb.service) ∧
      (cb.call now op).recorded = [false]) ∧
    (∀ v, op = .ok v →
      (cb.call now op).result = .ok v ∧ (cb.call now op).recorded = [true]) := by
  unfold CircuitBreaker.call
  rcases hexec with h | h
  · rw [if_neg h]
    exact ⟨fun e he => he ▸ executeCall_error cb now e,
           fun v hv => hv ▸ executeCall_ok cb now v⟩
  · by_cases hs : cb.state = "open"
    · rw [if_pos hs, if_pos h]
      constructor
      · intro e he; subst he
        simpa using executeCall_error { cb with state := "half-open" } now e
      · intro v hv; subst hv
        simpa using executeCall_ok { cb with state := "half-open" } now v
    · rw [if_neg hs]
      exact ⟨fun e he => he ▸ executeCall_error cb now e,
             fun v hv => hv ▸ executeCall_ok cb now v⟩

/-- Witness for C5: the very first failure on a fresh breaker is
surfaced as `CircuitOpenException` and recorded. -/
theorem C5_guarded_call_contract_witness :
    ((wrap_cb "S").call 0 (.error .connectionError : Except GwError Unit)).result
        = .error (.circuitOpen "S") ∧
    ((wrap_cb "S").call 0 (.error .connectionError : Except GwError Unit)).recorded
        = [false] :=
  (C5_guarded_call_contract (wrap_cb "S") 0 (.error .connectionError)
    (Or.inl (by decide))).1 .connectionError rfl

/-- C7: once `now - open_since ≥ recovery_timeout`, the next call runs
as a half-open probe; a failing probe reopens the breaker and resets
`open_since` to the current time, a succeeding probe closes it and
clears the outcome window — with no threshold condition involved. -/
theorem C7_half_open_probe {α : Type} (cb : CircuitBreaker) (now s : Int)
    (v : α) (e : GwError) (hst : cb.state = "open")
    (hsince : cb.open_since = some s) (helapsed : cb.recovery_timeout ≤ now - s) :
    ((cb.call now (.error e : Except GwError α)).result
        = .error (.circuitOpen cb.service) ∧
     (cb.call now (.error e : Except GwError α)).breaker.state = "open" ∧
     (cb.call now (.error e : Except GwError α)).breaker.open_since = some now ∧
     (cb.call now (.error e : Except GwError α)).recorded = [false]) ∧
    ((cb.call now (.ok v)).result = .ok v ∧
     (cb.call now (.ok v)).breaker.state = "closed" ∧
     (cb.call now (.ok v)).breaker.results = [] ∧
     (cb.call now (.ok v)).recorded = [true]) := by
  unfold CircuitBreaker.call
  rw [hst, hsince]
  simp only [Option.getD_some, if_pos rfl, if_pos helapsed]
  unfold CircuitBreaker.executeCall
  simp

/-- Witness for C7: a breaker opened at time 0 with
`recovery_timeout = 20`, probed at time 25. -/
theorem C7_half_open_probe_witness :
    (({ wrap_cb "S" with state := "open", open_since := some 0 }).call 25
        (.error .connectionError : Except GwError Unit)).breaker.open_since
      = some 25 ∧
    (({ wrap_cb "S" with state := "open", open_since := some 0 }).call 25
        (.ok () : Except GwError Unit)).breaker.state = "closed" :=
  ⟨(C7_half_open_probe { wrap_cb "S" with state := "open", open_since := some 0 }
      25 0 () .connectionError rfl rfl (by decide)).1.2.2.1,
   (C7_half_open_probe { wrap_cb "S" with state := "open", open_since := some 0 }
      25 0 () .connectionError rfl rfl (by decide)).2.2.1⟩

/-- Iterated guarded calls whose wrapped operation always raises,
all attempted at the same instant `now`. -/
def failCalls (cb : CircuitBreaker) (now : Int) : Nat → CircuitBreaker
  | 0 => cb
  | k + 1 =>
    ((failCalls cb now k).call now
      (.error .connectionError : Except GwError Unit)).breaker

/-- A failing call in a state that is neither open nor half-open,
with the appended window still below the threshold, only appends
`false` to the window. -/
theorem call_fail_below_threshold (cb : CircuitBreaker) (now : Int)
    (hopen : cb.state ≠ "open") (hhalf : cb.state ≠ "half-open")
    (hth : (dequeAppend cb.window_size cb.results false).count false
            < cb.failure_threshold) :
    (cb.call now (.error .connectionError : Except GwError Unit)).breaker =
      { cb with results := dequeAppend cb.window_size cb.results false } := by
  unfold CircuitBreaker.call CircuitBreaker.executeCall
  rw [if_neg hopen]
  simp only [CircuitBreaker.failure_count]
  rw [if_neg hhalf, if_neg (not_le.mpr hth)]

/-- A failing call in a state that is neither open nor half-open,
with the appended window reaching the threshold, opens the breaker
and stamps `open_since`. -/
theorem call_fail_opens (cb : CircuitBreaker) (now : Int)
    (hopen : cb.state ≠ "open") (hhalf : cb.state ≠ "half-open")
    (hth : cb.failure_threshold
            ≤ (dequeAppend cb.window_size cb.results false).count false) :
    (cb.call now (.error .connectionError : Except GwError Unit)).breaker =
      { cb with results := dequeAppend cb.window_size cb.results false,
                state := "open", open_since := some now } := by
  unfold CircuitBreaker.call CircuitBreaker.executeCall
  rw [if_neg hopen]
  simp only [CircuitBreaker.failure_count]
  rw [if_neg hhalf, if_pos hth]

/-- Appending to a window with room left keeps every entry. -/
theorem dequeAppend_replicate (w k : Nat) (h : k + 1 ≤ w) :
    dequeAppend w (List.replicate k false) false
      = List.replicate (k + 1) false := by
  unfold dequeAppend
  rw [if_neg (by simp; omega), ← List.replicate_succ']

/-- Closed phase: while fewer than `failure_threshold` failures have
been recorded (and the window can hold them), the breaker stays
closed and the window is exactly the failures so far. -/
theorem failCalls_closed (s : String) (w t : Nat) (rto now : Int) (k : Nat)
    (hk : k < t) (hkw : k ≤ w) :
    failCalls (CircuitBreaker.make s w t rto) now k
      = { CircuitBreaker.make s w t rto with results := List.replicate k false } := by
  induction k with
  | zero => rfl
  | succ k ih =>
    rw [failCalls, ih (Nat.lt_of_succ_lt hk) (Nat.le_of_succ_le hkw)]
    rw [call_fail_below_threshold _ now (by simp [CircuitBreaker.make])
      (by simp [CircuitBreaker.make])
      (by simp [CircuitBreaker.make, dequeAppend_replicate w k hkw]; omega)]
    simp [CircuitBreaker.make, dequeAppend_replicate w k hkw]

/-- Opening: the `failure_threshold`-th consecutive failure opens the
breaker, with the window holding exactly those failures. -/
theorem failCalls_opens (s : String) (w t : Nat) (rto now : Int)
    (ht : 1 ≤ t) (htw : t ≤ w) :
    failCalls (CircuitBreaker.make s w t rto) now t
      = { CircuitBreaker.make s w t rto with
            state := "open", open_since := some now,
            results := List.replicate t false } := by
  obtain ⟨k, rfl⟩ : ∃ k, t = k + 1 := ⟨t - 1, by omega⟩
  rw [failCalls, failCalls_closed s w (k + 1) rto now k (Nat.lt_succ_self k) (by omega)]
  rw [call_fail_opens _ now (by simp [CircuitBreaker.make])
    (by simp [CircuitBreaker.make])
    (by simp [CircuitBreaker.make, dequeAppend_replicate w k htw])]
  simp [CircuitBreaker.make, dequeAppend_replicate w k htw]

/-- Open phase: further calls at the same instant are rejected and
leave the breaker unchanged. -/
theorem failCalls_stays_open (s : String) (w t : Nat) (rto now : Int)
    (ht : 1 ≤ t) (htw : t ≤ w) (hrto : 0 < rto) (k : Nat) (hk : t ≤ k) :
    failCalls (CircuitBreaker.make s w t rto) now k
      = { CircuitBreaker.make s w t rto with
            state := "open", open_since := some now,
            results := List.replicate t false } := by
  induction k, hk using Nat.le_induction with
  | base => exact failCalls_opens s w t rto now ht htw
  | succ k hk ih =>
    rw [failCalls, ih, call_rejected _ now _ rfl (by simpa using hrto)]

/-- C6: from a fresh closed breaker with `window_size ≥ N ≥
failure_threshold ≥ 1`, consecutive failing calls leave the breaker
closed strictly before the count of `false` outcomes reaches
`failure_threshold`, open the breaker exactly on the call where it
does, keep it open through call `N`, and the next call attempted
before `recovery_timeout` elapses is rejected with
`CircuitOpenException` without invoking the wrapped operation and
without touching the breaker. -/
theorem C6_threshold_opens (s : String) (w t N : Nat) (rto now now2 : Int)
    (ht : 1 ≤ t) (hN : t ≤ N) (hw : N ≤ w) (hrto : 0 < rto)
    (hlate : now2 - now < rto) :
    (∀ k, k < t →
      (failCalls (CircuitBreaker.make s w t rto) now k).state = "closed" ∧
      (failCalls (CircuitBreaker.make s w t rto) now k).failure_count = k) ∧
    (∀ k, t ≤ k → k ≤ N →
      (failCalls (CircuitBreaker.make s w t rto) now k).state = "open" ∧
      (failCalls (CircuitBreaker.make s w t rto) now k).failure_count = t) ∧
    ((failCalls (CircuitBreaker.make s w t rto) now N).call now2
        (.error .connectionError : Except GwError Unit)).result
      = .error (.circuitOpen s) ∧
    ((failCalls (CircuitBreaker.make s w t rto) now N).call now2
        (.error .connectionError : Except GwError Unit)).recorded = [] ∧
    ((failCalls (CircuitBreaker.make s w t rto) now N).call now2
        (.error .connectionError : Except GwError Unit)).breaker
      = failCalls (CircuitBreaker.make s w t rto) now N := by
  have hopenN := failCalls_stays_open s w t rto now ht (le_trans hN hw) hrto N hN
  have hrej : (failCalls (CircuitBreaker.make s w t rto) now N).call now2
      (.error .connectionError : Except GwError Unit)
      = ⟨.error (.circuitOpen (failCalls (CircuitBreaker.make s w t rto) now N).service),
         failCalls (CircuitBreaker.make s w t rto) now N, []⟩ := by
    apply call_rejected
    · rw [hopenN]
    · rw [hopenN]; simp [CircuitBreaker.make]; omega
  refine ⟨?_, ?_, ?_, ?_, ?_⟩
  · intro k hk
    rw [failCalls_closed s w t rto now k hk (by omega)]
    simp [CircuitBreaker.make, CircuitBreaker.failure_count]
  · intro k hk1 hk2
    rw [failCalls_stays_open s w t rto now ht (le_trans hN hw) hrto k hk1]
    simp [CircuitBreaker.make, CircuitBreaker.failure_count]
  · rw [hrej, hopenN]; simp [CircuitBreaker.make]
  · rw [hrej]
  · rw [hrej]

/-- Witness for C6: `window_size = 10`, `failure_threshold = 3`,
five consecutive failures starting at time 0, next call at time 5. -/
theorem C6_threshold_opens_witness :
    (failCalls (CircuitBreaker.make "S" 10 3 20) 0 2).state = "closed" ∧
    (failCalls (CircuitBreaker.make "S" 10 3 20) 0 3).state = "open" ∧
    ((failCalls (CircuitBreaker.make "S" 10 3 20) 0 5).call 5
        (.error .connectionError : Except GwError Unit)).result
      = .error (.circuitOpen "S") ∧
    ((failCalls (CircuitBreaker.make "S" 10 3 20) 0 5).call 5
        (.error .connectionError : Except GwError Unit)).recorded = [] := by
  have h := C6_threshold_opens "S" 10 3 5 20 0 5 (by decide) (by decide)
    (by decide) (by decide) (by decide)
  exact ⟨(h.1 2 (by decide)).1, (h.2.1 3 (by decide) (by decide)).1,
         h.2.2.1, h.2.2.2.1⟩

/-! ## Claims about the service clients -/

/-- C1 (counterexample): on a freshly constructed flights client, one
failing `get_all` call records a failure in the breaker created by
the decorator of `get_all` while the breaker governing
`get_flight_by_number` is still the untouched fresh breaker — the two
guarded operations of the same backend do not share one breaker. -/
theorem C1_counterexample :
    ((FlightsService.init.get_all 0 (.error .connectionError)).2).cb_get_all.results
      = [false] ∧
    ((FlightsService.init.get_all 0 (.error .connectionError)).2).cb_get_flight_by_number
      = wrap_cb "Flights Service" :=
  ⟨rfl, rfl⟩

/-- C1 (amended): each decorated operation owns the breaker created by
its own `wrap_cb` application; on every backend — flights, tickets
and privileges — a call through one guarded operation never changes
the breaker governing any other guarded operation of that backend,
and every per-operation breaker is constructed independently as a
fresh `wrap_cb` instance. -/
theorem C1_per_operation_breakers (fs : FlightsService) (ts : TicketsService)
    (ps : PrivilegesService) (now : Int)
    (ra : Except GwError (HttpResponse (List Flight)))
    (rf : Except GwError (HttpResponse Flight))
    (rut : Except GwError (HttpResponse (List Ticket)))
    (rt : Except GwError (HttpResponse Ticket))
    (rp : Except GwError (HttpResponse Privilege))
    (rh : Except GwError (HttpResponse (List PrivilegeHistory)))
    (rx : Except GwError (HttpResponse PrivilegeHistory)) :
    ((fs.get_all now ra).2).cb_get_flight_by_number = fs.cb_get_flight_by_number ∧
    ((fs.get_flight_by_number now rf).2).cb_get_all = fs.cb_get_all ∧
    ((ts.get_user_tickets now rut).2).cb_get_ticket = ts.cb_get_ticket ∧
    ((ts.get_ticket now rt).2).cb_get_user_tickets = ts.cb_get_user_tickets ∧
    ((ps.get_user_privelge now rp).2).cb_get_user_privelge_history
      = ps.cb_get_user_privelge_history ∧
    ((ps.get_user_privelge now rp).2).cb_get_user_privelge_transaction
      = ps.cb_get_user_privelge_transaction ∧
    ((ps.get_user_privelge_history now rh).2).cb_get_user_privelge
      = ps.cb_get_user_privelge ∧
    ((ps.get_user_privelge_history now rh).2).cb_get_user_privelge_transaction
      = ps.cb_get_user_privelge_transaction ∧
    ((ps.get_user_privelge_transaction now rx).2).cb_get_user_privelge
      = ps.cb_get_user_privelge ∧
    ((ps.get_user_privelge_transaction now rx).2).cb_get_user_privelge_history
      = ps.cb_get_user_privelge_history ∧
    FlightsService.init.cb_get_all = wrap_cb "Flights Service" ∧
    FlightsService.init.cb_get_flight_by_number = wrap_cb "Flights Service" ∧
    TicketsService.init.cb_get_user_tickets = wrap_cb "Ticket Service" ∧
    TicketsService.init.cb_get_ticket = wrap_cb "Ticket Service" ∧
    PrivilegesService.init.cb_get_user_privelge = wrap_cb "Bonus Service" ∧
    PrivilegesService.init.cb_get_user_privelge_history
      = wrap_cb "Bonus Service" ∧
    PrivilegesService.init.cb_get_user_privelge_transaction
      = wrap_cb "Bonus Service" :=
  ⟨rfl, rfl, rfl, rfl, rfl, rfl, rfl, rfl, rfl, rfl, rfl, rfl, rfl, rfl,
   rfl, rfl, rfl⟩

/-- Example ticket used in concrete evaluations. -/
def exTicket : Ticket := ⟨1, "user", "F1", 500, "PAID"⟩

/-- Example ledger entry used in concrete evaluations. -/
def exHistory : PrivilegeHistory := ⟨7, 1, 0, 100, "DEBIT_THE_ACCOUNT"⟩

/-- C3 (code evaluated at the failing input): a 404 from the flight
backend on `get_flight_by_number` is not mapped to an absent value —
it flows through `raise_for_status`, surfaces as
`CircuitOpenException` and records a failure in the window of
that breaker; by contrast `get_ticket` maps its 404 to `none` with a
success outcome. -/
theorem C3_flight_404_counted_as_failure :
    (FlightsService.init.get_flight_by_number 0 (.ok ⟨404, default_flight⟩)).1
      = .error (.circuitOpen "Flights Service") ∧
    ((FlightsService.init.get_flight_by_number 0
        (.ok ⟨404, default_flight⟩)).2).cb_get_flight_by_number.results = [false] ∧
    (TicketsService.init.get_ticket 0 (.ok ⟨404, exTicket⟩)).1 = .ok none ∧
    ((TicketsService.init.get_ticket 0
        (.ok ⟨404, exTicket⟩)).2).cb_get_ticket.results = [true] :=
  ⟨rfl, rfl, rfl, rfl⟩

/-- Purchase environment where the flight backend answers 404 for the
requested flight number; the later interactions are never reached. -/
def flightNotFoundEnv : BuyEnv :=
  { flightResp := .ok ⟨404, default_flight⟩,
    privResp1 := .error .connectionError,
    addTxResp := .error .connectionError,
    privResp2 := .error .connectionError,
    createResp := .error .connectionError }

/-- C2 (code evaluated at the failing input): a purchase for a
non-existent flight number does not return the validation error —
the 404 is swallowed by the breaker, the handler raises
`CircuitOpenException` (surfaced as 503 service-unavailable), a
failure is recorded in the flight breaker, and no ledger transaction
or ticket-creation request is issued. -/
theorem C2_flight_not_found_surfaces_unavailable :
    (buy_ticket GatewayState.init flightNotFoundEnv "F404" true "user" 0 1).outcome
      = .raised (.circuitOpen "Flights Service") ∧
    (buy_ticket GatewayState.init flightNotFoundEnv "F404" true "user" 0 1).transactions
      = [] ∧
    (buy_ticket GatewayState.init flightNotFoundEnv "F404" true "user" 0 1).created
      = [] ∧
    ((buy_ticket GatewayState.init flightNotFoundEnv "F404" true "user" 0
        1).gw.flights_service).cb_get_flight_by_number.results = [false] :=
  ⟨rfl, rfl, rfl, rfl⟩

/-- C4 (counterexample): `create_ticket` is not executed through the
guarded-call contract — a failing backend surfaces the raw
`HTTPError`, not `CircuitOpenException`. -/
theorem C4_counterexample :
    TicketsService.create_ticket ⟨1, "user", "F1", 500⟩ (.ok ⟨500, ()⟩)
      = .error (.httpError 500) :=
  rfl

/-- C4 (amended): none of the side-effecting operations —
`create_ticket`, `delete_ticket`, `add_transaction`,
`rollback_transaction` — is breaker-guarded: each surfaces the raw
`HTTPError` of a failing backend and touches no breaker; in the
refund path only the read half, `get_user_privelge_transaction`, is
guarded and surfaces `CircuitOpenException` on failure. -/
theorem C4_mutations_unguarded (st : Nat) (hst : 400 ≤ st)
    (creq : TicketCreateRequest) (areq : AddTranscationRequest) :
    TicketsService.create_ticket creq (.ok ⟨st, ()⟩) = .error (.httpError st) ∧
    TicketsService.delete_ticket (.ok ⟨st, ()⟩) = .error (.httpError st) ∧
    PrivilegesService.add_transaction areq (.ok ⟨st, ()⟩) = .error (.httpError st) ∧
    PrivilegesService.rollback_transaction (.ok ⟨st, ()⟩) = .error (.httpError st) ∧
    (PrivilegesService.init.get_user_privelge_transaction 0
        (.ok ⟨500, exHistory⟩)).1 = .error (.circuitOpen "Bonus Service") := by
  refine ⟨?_, ?_, ?_, ?_, rfl⟩ <;>
    simp [TicketsService.create_ticket, TicketsService.delete_ticket,
      PrivilegesService.add_transaction, PrivilegesService.rollback_transaction,
      raise_for_status, hst]

/-- Witness for C4 (amended): status 503 on concrete payloads. -/
theorem C4_mutations_unguarded_witness :
    TicketsService.create_ticket ⟨2, "user", "F1", 500⟩ (.ok ⟨503, ()⟩)
      = .error (.httpError 503) ∧
    PrivilegesService.rollback_transaction (.ok ⟨503, ()⟩)
      = .error (.httpError 503) :=
  ⟨(C4_mutations_unguarded 503 (by decide) ⟨2, "user", "F1", 500⟩
      ⟨7, 1, 0, 50, "FILL_IN_BALANCE"⟩).1,
   (C4_mutations_unguarded 503 (by decide) ⟨2, "user", "F1", 500⟩
      ⟨7, 1, 0, 50, "FILL_IN_BALANCE"⟩).2.2.2.1⟩

/-! ## Claims about the purchase flow -/

/-- Flight fixture with price `p`. -/
def flightF1 (p : Int) : Flight := ⟨"F1", "SVO", "LED", 100, p⟩

/-- Privilege fixture with balance `b`. -/
def privAcct (b : Int) : Privilege := ⟨7, b, "BRONZE"⟩

/-- Purchase environment where every backend interaction succeeds:
flight price `p`, balance `b` on the first read, balance `b2` on the
re-read. -/
def goodBuyEnv (p b b2 : Int) : BuyEnv :=
  { flightResp := .ok ⟨200, flightF1 p⟩,
    privResp1 := .ok ⟨200, privAcct b⟩,
    addTxResp := .ok ⟨200, ()⟩,
    privResp2 := .ok ⟨200, privAcct b2⟩,
    createResp := .ok ⟨200, ()⟩ }

/-- C8: for a purchase with flight price `p` and balance `b`, the
balance flag set gives `paid_by_bonus = min b p` and
`paid_by_money = p - min b p`, issuing one DEBIT_THE_ACCOUNT
transaction of `min b p` exactly when it is nonzero (hence whenever
it is positive); the flag unset gives `paid_by_bonus = 0`,
`paid_by_money = p` and one FILL_IN_BALANCE transaction of `p / 10`
(floor division); in particular `p = 500`, `b = 300` with the flag
gives the 300/200 split, and without the flag the 0/500 split with a
FILL_IN_BALANCE of 50. -/
theorem C8_payment_split (p b b2 : Int) (uid : Nat) (u : String) (now : Int) :
    (buy_ticket GatewayState.init (goodBuyEnv p b b2) "F1" true u now uid).outcome
      = .purchased ⟨uid, "F1", "SVO", "LED", now, p, p - min b p, min b p,
                    "PAID", b2, "BRONZE"⟩ ∧
    (buy_ticket GatewayState.init (goodBuyEnv p b b2) "F1" true u now uid).transactions
      = (if min b p ≠ 0 then [⟨7, uid, now, min b p, "DEBIT_THE_ACCOUNT"⟩]
         else []) ∧
    (buy_ticket GatewayState.init (goodBuyEnv p b b2) "F1" false u now uid).outcome
      = .purchased ⟨uid, "F1", "SVO", "LED", now, p, p, 0, "PAID", b2, "BRONZE"⟩ ∧
    (buy_ticket GatewayState.init (goodBuyEnv p b b2) "F1" false u now uid).transactions
      = [⟨7, uid, now, Int.fdiv p 10, "FILL_IN_BALANCE"⟩] ∧
    (buy_ticket GatewayState.init (goodBuyEnv 500 300 450) "F1" true u now uid).outcome
      = .purchased ⟨uid, "F1", "SVO", "LED", now, 500, 200, 300,
                    "PAID", 450, "BRONZE"⟩ ∧
    (buy_ticket GatewayState.init (goodBuyEnv 500 300 350) "F1" false u now uid).transactions
      = [⟨7, uid, now, 50, "FILL_IN_BALANCE"⟩] := by
  refine ⟨?_, ?_, rfl, rfl, rfl, rfl⟩ <;>
  · by_cases hb : min b p = 0 <;>
      simp [buy_ticket, goodBuyEnv, flightF1, privAcct, GatewayState.init,
        FlightsService.init, TicketsService.init, PrivilegesService.init,
        FlightsService.get_flight_by_number, PrivilegesService.get_user_privelge,
        PrivilegesService.add_transaction, TicketsService.create_ticket,
        get_flight_by_number_op, get_user_privelge_op, raise_for_status,
        CircuitBreaker.call, CircuitBreaker.executeCall, wrap_cb,
        CircuitBreaker.make, dequeAppend, CircuitBreaker.failure_count, hb]

/-- C10: with the balance flag set and a zero privilege balance, no
ledger transaction of any kind is issued, yet the ticket-creation
request is still issued for the full price and the purchase response
reports status PAID with `paidByBonuses = 0` and
`paidByMoney = p`. -/
theorem C10_zero_balance_purchase (p b2 : Int) (hp : 0 ≤ p) (uid : Nat)
    (u : String) (now : Int) :
    (buy_ticket GatewayState.init (goodBuyEnv p 0 b2) "F1" true u now uid).transactions
      = [] ∧
    (buy_ticket GatewayState.init (goodBuyEnv p 0 b2) "F1" true u now uid).created
      = [⟨uid, u, "F1", p⟩] ∧
    (buy_ticket GatewayState.init (goodBuyEnv p 0 b2) "F1" true u now uid).outcome
      = .purchased ⟨uid, "F1", "SVO", "LED", now, p, p, 0, "PAID", b2, "BRONZE"⟩ := by
  have hmin : min (0 : Int) p = 0 := min_eq_left hp
  simp [buy_ticket, goodBuyEnv, flightF1, privAcct, GatewayState.init,
    FlightsService.init, TicketsService.init, PrivilegesService.init,
    FlightsService.get_flight_by_number, PrivilegesService.get_user_privelge,
    PrivilegesService.add_transaction, TicketsService.create_ticket,
    get_flight_by_number_op, get_user_privelge_op, raise_for_status,
    CircuitBreaker.call, CircuitBreaker.executeCall, wrap_cb,
    CircuitBreaker.make, dequeAppend, CircuitBreaker.failure_count, hmin]

/-- Witness for C10: price 500, zero balance. -/
theorem C10_zero_balance_purchase_witness :
    (0 : Int) ≤ 500 ∧
    (buy_ticket GatewayState.init (goodBuyEnv 500 0 0) "F1" true "user" 0 1).transactions
      = [] ∧
    (buy_ticket GatewayState.init (goodBuyEnv 500 0 0) "F1" true "user" 0 1).created
      = [⟨1, "user", "F1", 500⟩] :=
  ⟨by decide,
   (C10_zero_balance_purchase 500 0 (by decide) 1 "user" 0).1,
   (C10_zero_balance_purchase 500 0 (by decide) 1 "user" 0).2.1⟩

/-! ## Claims about the aggregate views -/

/-- A guarded call surfaces either a value or
`CircuitOpenException(service)` — never any other error. -/
theorem call_result_cases {α : Type} (cb : CircuitBreaker) (now : Int)
    (op : Except GwError α) :
    (∃ v, (cb.call now op).result = .ok v) ∨
    (cb.call now op).result = .error (.circuitOpen cb.service) := by
  unfold CircuitBreaker.call
  rcases op with e | v
  · right
    by_cases h1 : cb.state = "open"
    · by_cases h2 : cb.recovery_timeout ≤ now - cb.open_since.getD 0
      · rw [if_pos h1, if_pos h2]
        exact (executeCall_error _ now e).1
      · rw [if_pos h1, if_neg h2]
    · rw [if_neg h1]
      exact (executeCall_error cb now e).1
  · by_cases h1 : cb.state = "open"
    · by_cases h2 : cb.recovery_timeout ≤ now - cb.open_since.getD 0
      · refine Or.inl ⟨v, ?_⟩
        rw [if_pos h1, if_pos h2]
        exact (executeCall_ok _ now v).1
      · right
        rw [if_pos h1, if_neg h2]
    · refine Or.inl ⟨v, ?_⟩
      rw [if_neg h1]
      exact (executeCall_ok cb now v).1

/-- The get-or-default flight lookup never raises: the only error a
guarded call can surface is `CircuitOpenException`, which it
catches. -/
theorem get_flight_by_number_or_default_ok (fs : FlightsService) (now : Int)
    (resp : Except GwError (HttpResponse Flight)) :
    ∃ f, (fs.get_flight_by_number_or_default now resp).1 = .ok f := by
  unfold FlightsService.get_flight_by_number_or_default
    FlightsService.get_flight_by_number
  rcases call_result_cases fs.cb_get_flight_by_number now
      (get_flight_by_number_op resp) with ⟨v, hv⟩ | h
  · exact ⟨v, by simp [hv]⟩
  · exact ⟨default_flight, by simp [h]⟩

/-- The ticket-mapping loop never raises. -/
theorem map_tickets_ok (fs : FlightsService) (now : Int)
    (fr : String → Except GwError (HttpResponse Flight)) (ts : List Ticket) :
    ∃ v, (map_tickets fs now fr ts).1 = .ok v := by
  induction ts generalizing fs with
  | nil => exact ⟨[], rfl⟩
  | cons t ts ih =>
    obtain ⟨f, hf⟩ := get_flight_by_number_or_default_ok fs now (fr t.flight_number)
    obtain ⟨v, hv⟩ := ih
      (fs.get_flight_by_number_or_default now (fr t.flight_number)).2
    exact ⟨⟨t.ticket_uid, t.flight_number, f.fromAirport, f.toAirport, f.date,
             f.price, t.status⟩ :: v,
           by simp [map_tickets, map_ticket_to_ticket_response, hf, hv]⟩

/-- The breaker is open and its recovery timeout has not elapsed, so
the next call is rejected. -/
def CircuitBreaker.rejecting (cb : CircuitBreaker) (now : Int) : Prop :=
  cb.state = "open" ∧ now - cb.open_since.getD 0 < cb.recovery_timeout

instance (cb : CircuitBreaker) (now : Int) : Decidable (cb.rejecting now) := by
  unfold CircuitBreaker.rejecting
  infer_instance

/-- Gateway state whose privilege-read breaker is open since time 0,
everything else fresh. -/
def gwPrivOpen : GatewayState :=
  { GatewayState.init with
      privileges_service :=
        { PrivilegesService.init with
            cb_get_user_privelge :=
              { wrap_cb "Bonus Service" with
                  state := "open", open_since := some 0 } } }

/-- A user-view environment where every backend answers. -/
def healthyViewEnv : UserViewEnv :=
  { privResp := .ok ⟨200, privAcct 300⟩,
    ticketsResp := .ok ⟨200, [exTicket]⟩,
    flightResp := fun _ => .ok ⟨200, flightF1 500⟩ }

/-- C9 (counterexample): in the "my tickets" view, a rejected
privilege lookup is not degraded — `get_tickets` has no exception
handling, so the whole response fails with the propagated
`CircuitOpenException` even though the ticket backend is healthy. -/
theorem C9_counterexample :
    (get_tickets gwPrivOpen 0 healthyViewEnv).1
      = .raised (.circuitOpen "Bonus Service") :=
  rfl

/-- C9 (amended): only the profile view degrades per section — when
the privilege breaker rejects, `get_user` still answers with an
empty privilege section and whatever ticket list it computed; when
the ticket breaker rejects, it answers with an empty ticket list and
whatever the privilege side produced (or the user-not-found
response); when both reject, it answers with both sections empty —
never failing the whole response.  The "my tickets" view has no such
handling: `get_tickets` fails entirely with the propagated
`CircuitOpenException` whenever the privilege breaker rejects, and
likewise whenever the ticket breaker rejects and the privilege
lookup found the user. -/
theorem C9_profile_degrades (gw : GatewayState) (now : Int) (env : UserViewEnv) :
    (gw.privileges_service.cb_get_user_privelge.rejecting now →
      ∃ ts, (get_user gw now env).1 = .ok ⟨ts, none⟩) ∧
    (gw.tickets_service.cb_get_user_tickets.rejecting now →
      (∃ sec, (get_user gw now env).1 = .ok ⟨[], sec⟩) ∨
      (get_user gw now env).1 = .notFound) ∧
    (gw.privileges_service.cb_get_user_privelge.rejecting now →
      gw.tickets_service.cb_get_user_tickets.rejecting now →
      (get_user gw now env).1 = .ok ⟨[], none⟩) ∧
    (gw.privileges_service.cb_get_user_privelge.rejecting now →
      (get_tickets gw now env).1
        = .raised (.circuitOpen
            gw.privileges_service.cb_get_user_privelge.service)) ∧
    (∀ p, (gw.privileges_service.cb_get_user_privelge.call now
            (get_user_privelge_op env.privResp)).result = .ok (some p) →
      gw.tickets_service.cb_get_user_tickets.rejecting now →
      (get_tickets gw now env).1
        = .raised (.circuitOpen
            gw.tickets_service.cb_get_user_tickets.service)) := by
  refine ⟨?_, ?_, ?_, ?_, ?_⟩
  · intro hrej
    have hp := call_rejected gw.privileges_service.cb_get_user_privelge now
      (get_user_privelge_op env.privResp) hrej.1 hrej.2
    rcases call_result_cases gw.tickets_service.cb_get_user_tickets now
        (get_user_tickets_op env.ticketsResp) with ⟨ti, hti⟩ | hterr
    · obtain ⟨mt, hmt⟩ := map_tickets_ok gw.flights_service now env.flightResp ti
      exact ⟨mt, by
        simp [get_user, PrivilegesService.get_user_privelge,
          TicketsService.get_user_tickets, hp, hti, hmt]⟩
    · exact ⟨[], by
        simp [get_user, PrivilegesService.get_user_privelge,
          TicketsService.get_user_tickets, hp, hterr]⟩
  · intro hrej
    have ht := call_rejected gw.tickets_service.cb_get_user_tickets now
      (get_user_tickets_op env.ticketsResp) hrej.1 hrej.2
    rcases call_result_cases gw.privileges_service.cb_get_user_privelge now
        (get_user_privelge_op env.privResp) with ⟨pv, hpv⟩ | hperr
    · rcases pv with _ | priv
      · right
        simp [get_user, PrivilegesService.get_user_privelge, hpv]
      · refine Or.inl ⟨some ⟨priv.balance, priv.status⟩, ?_⟩
        simp [get_user, PrivilegesService.get_user_privelge,
          TicketsService.get_user_tickets, hpv, ht]
    · refine Or.inl ⟨none, ?_⟩
      simp [get_user, PrivilegesService.get_user_privelge,
        TicketsService.get_user_tickets, hperr, ht]
  · intro hprej htrej
    have hp := call_rejected gw.privileges_service.cb_get_user_privelge now
      (get_user_privelge_op env.privResp) hprej.1 hprej.2
    have ht := call_rejected gw.tickets_service.cb_get_user_tickets now
      (get_user_tickets_op env.ticketsResp) htrej.1 htrej.2
    simp [get_user, PrivilegesService.get_user_privelge,
      TicketsService.get_user_tickets, hp, ht]
  · intro hprej
    have hp := call_rejected gw.privileges_service.cb_get_user_privelge now
      (get_user_privelge_op env.privResp) hprej.1 hprej.2
    simp [get_tickets, PrivilegesService.get_user_privelge, hp]
  · intro p hpv htrej
    have ht := call_rejected gw.tickets_service.cb_get_user_tickets now
      (get_user_tickets_op env.ticketsResp) htrej.1 htrej.2
    simp [get_tickets, PrivilegesService.get_user_privelge,
      TicketsService.get_user_tickets, hpv, ht]

/-- Gateway state with both the privilege-read and ticket-read
breakers open since time 0. -/
def gwBothOpen : GatewayState :=
  { GatewayState.init with
      privileges_service :=
        { PrivilegesService.init with
            cb_get_user_privelge :=
              { wrap_cb "Bonus Service" with
                  state := "open", open_since := some 0 } },
      tickets_service :=
        { TicketsService.init with
            cb_get_user_tickets :=
              { wrap_cb "Ticket Service" with
                  state := "open", open_since := some 0 } } }

/-- Gateway state whose ticket-list breaker is open since time 0,
everything else fresh. -/
def gwTickOpen : GatewayState :=
  { GatewayState.init with
      tickets_service :=
        { TicketsService.init with
            cb_get_user_tickets :=
              { wrap_cb "Ticket Service" with
                  state := "open", open_since := some 0 } } }

/-- Witness for C9 (amended): with both breakers open, the profile
view still answers with empty ticket list and empty privilege
section, while the "my tickets" view fails whole with a 503 both
with the privilege breaker open and with the ticket breaker open. -/
theorem C9_profile_degrades_witness :
    (get_user gwBothOpen 0 healthyViewEnv).1 = .ok ⟨[], none⟩ ∧
    (get_tickets gwPrivOpen 5 healthyViewEnv).1
      = .raised (.circuitOpen "Bonus Service") ∧
    (get_tickets gwTickOpen 0 healthyViewEnv).1
      = .raised (.circuitOpen "Ticket Service") :=
  ⟨(C9_profile_degrades gwBothOpen 0 healthyViewEnv).2.2.1
      ⟨rfl, by decide⟩ ⟨rfl, by decide⟩,
   (C9_profile_degrades gwPrivOpen 5 healthyViewEnv).2.2.2.1
      ⟨rfl, by decide⟩,
   (C9_profile_degrades gwTickOpen 0 healthyViewEnv).2.2.2.2
      (privAcct 300) rfl ⟨rfl, by decide⟩⟩

end DsLab3
